import Mathlib

/-!
Verification of the request-routing and motor-state logic of
`esp32_motor_micropython.py` (ESP32-C3 motor controller firmware).

The firmware keeps a global motor state (a `running` flag and a `speed`
value), drives two motor control pins and a status LED, and serves a
five-route HTTP API.  We embed the state as an explicit structure, the
pin writes as boolean fields of that structure, and each Python function
(`stop_motor`, `start_motor`, `process_alarm_command`, `handle_request`)
as a Lean function threading the state.  Python's `json.loads` (standard
library, not part of the repository) is modelled by an executable
recursive-descent JSON parser over the relevant subset; Python's
`str.split` / `str.strip` are modelled character-exactly.
-/

/-- The process-wide motor state together with the three digital outputs.
`motor_running` and `motor_speed` are the two global variables; `pin1`,
`pin2`, `status_led` record the last value written to `MOTOR_PIN1`
(GPIO2), `MOTOR_PIN2` (GPIO3) and `STATUS_LED` (GPIO4). -/
structure MotorState where
  motor_running : Bool
  motor_speed : Nat
  pin1 : Bool
  pin2 : Bool
  status_led : Bool
deriving DecidableEq, Repr

/-- Embeds `stop_motor`: clear `motor_running`, drive both control pins
low and the status LED off. -/
def stop_motor (s : MotorState) : MotorState :=
  { s with motor_running := false, pin1 := false, pin2 := false, status_led := false }

/-- Embeds `start_motor`: set `motor_running`, drive pin 1 high, pin 2
low and the status LED on. -/
def start_motor (s : MotorState) : MotorState :=
  { s with motor_running := true, pin1 := true, pin2 := false, status_led := true }

/-- The state after module initialisation and the `stop_motor()` call at
the top of `main()`: `motor_running = False`, `motor_speed = 128`, all
outputs low. -/
def initState : MotorState :=
  stop_motor { motor_running := false, motor_speed := 128,
               pin1 := false, pin2 := false, status_led := false }

/-- JSON values, as produced by Python's `json.loads`. -/
inductive Json where
  | null : Json
  | bool (b : Bool) : Json
  | num (n : Int) : Json
  | str (s : String) : Json
  | arr (items : List Json) : Json
  | obj (fields : List (String × Json)) : Json
deriving Repr

/-- Python equality of a JSON-decoded value with a string literal
(`action == \x27delete\x27`, `action in [...]`): true exactly when the value
is that string. -/
def isStr : Json → String → Bool
  | Json.str a, s => a == s
  | _, _ => false

/-- Python truthiness of a JSON value (`if enabled:`): `False`, `0`, the
empty string, `None`, the empty list and the empty dict are falsy. -/
def truthy : Json → Bool
  | Json.null => false
  | Json.bool b => b
  | Json.num n => n != 0
  | Json.str s => s != ""
  | Json.arr l => !l.isEmpty
  | Json.obj l => !l.isEmpty

/-- Look a key up in a JSON object's field list.  Python dicts keep the
last value bound to a duplicated key, so the scan keeps the last match. -/
def lookupKey (fields : List (String × Json)) (k : String) : Option Json :=
  fields.foldl (fun acc p => if p.1 = k then some p.2 else acc) none

/-- Embeds Python's `dict.get(k, default)`. -/
def dictGet (fields : List (String × Json)) (k : String) (d : Json) : Json :=
  match lookupKey fields k with
  | some v => v
  | none => d

/-- JSON insignificant whitespace (space, tab, newline, carriage return). -/
def jsonWs : Char → Bool
  | ' ' => true
  | '\t' => true
  | '\n' => true
  | '\r' => true
  | _ => false

/-- Drop leading JSON whitespace. -/
def skipWs : List Char → List Char
  | [] => []
  | c :: cs => if jsonWs c then skipWs cs else c :: cs

/-- Decode a JSON string escape character (the `\u` form is outside the
modelled subset). -/
def escChar : Char → Option Char
  | 'n' => some '\n'
  | 't' => some '\t'
  | 'r' => some '\r'
  | 'b' => some '\x08'
  | 'f' => some '\x0c'
  | '"' => some '"'
  | '\\' => some '\\'
  | '/' => some '/'
  | _ => none

/-- Parse the characters of a JSON string after the opening quote, up to
and including the closing quote; returns the decoded characters and the
remaining input. -/
def parseStrChars : List Char → Option (List Char × List Char)
  | [] => none
  | '"' :: rest => some ([], rest)
  | '\\' :: e :: rest =>
    match escChar e, parseStrChars rest with
    | some c, some p => some (c :: p.1, p.2)
    | _, _ => none
  | c :: rest =>
    match parseStrChars rest with
    | some p => some (c :: p.1, p.2)
    | none => none

/-- Parse a nonempty run of decimal digits. -/
def parseDigits (cs : List Char) : Option (Nat × List Char) :=
  let ds := cs.takeWhile Char.isDigit
  if ds.isEmpty then none
  else some (ds.foldl (fun a c => a * 10 + (c.toNat - 48)) 0, cs.dropWhile Char.isDigit)

/-- Parse a JSON integer (optional leading minus sign). -/
def parseNum : List Char → Option (Json × List Char)
  | '-' :: rest =>
    match parseDigits rest with
    | some p => some (Json.num (-(p.1 : Int)), p.2)
    | none => none
  | cs =>
    match parseDigits cs with
    | some p => some (Json.num (p.1 : Int), p.2)
    | none => none

/-- Strip a fixed keyword from the front of the input, returning what
follows it. -/
def stripKeyword : List Char → List Char → Option (List Char)
  | [], rest => some rest
  | k :: ks, c :: rest => if c = k then stripKeyword ks rest else none
  | _ :: _, [] => none

/-- Intermediate results of the JSON parser: a value, an object's field
list, or an array's item list. -/
inductive PJ where
  | v (j : Json) : PJ
  | ms (l : List (String × Json)) : PJ
  | its (l : List Json) : PJ

/-- Fuel-indexed recursive-descent JSON parser.  `mode 0` parses one
value, `mode 1` the members of an object after the opening brace (known
nonempty), `mode 2` the items of an array after the opening bracket
(known nonempty).  Structural recursion on the fuel keeps every call
kernel-reducible. -/
def parseCore : Nat → Nat → List Char → Option (PJ × List Char)
  | 0, _, _ => none
  | Nat.succ fuel, 0, cs =>
    match skipWs cs with
    | '"' :: rest =>
      match parseStrChars rest with
      | some p => some (PJ.v (Json.str (String.mk p.1)), p.2)
      | none => none
    | '\x7b' :: rest =>
      match skipWs rest with
      | '\x7d' :: r2 => some (PJ.v (Json.obj []), r2)
      | r2 =>
        match parseCore fuel 1 r2 with
        | some (PJ.ms l, r3) => some (PJ.v (Json.obj l), r3)
        | _ => none
    | '[' :: rest =>
      match skipWs rest with
      | ']' :: r2 => some (PJ.v (Json.arr []), r2)
      | r2 =>
        match parseCore fuel 2 r2 with
        | some (PJ.its l, r3) => some (PJ.v (Json.arr l), r3)
        | _ => none
    | cs2 =>
      match stripKeyword "true".toList cs2 with
      | some rest => some (PJ.v (Json.bool true), rest)
      | none =>
        match stripKeyword "false".toList cs2 with
        | some rest => some (PJ.v (Json.bool false), rest)
        | none =>
          match stripKeyword "null".toList cs2 with
          | some rest => some (PJ.v Json.null, rest)
          | none =>
            match cs2 with
            | c :: rest =>
              if c.isDigit || c == '-' then
                match parseNum (c :: rest) with
                | some p => some (PJ.v p.1, p.2)
                | none => none
              else none
            | [] => none
  | Nat.succ fuel, 1, cs =>
    match skipWs cs with
    | '"' :: rest =>
      match parseStrChars rest with
      | some kp =>
        match skipWs kp.2 with
        | ':' :: r2 =>
          match parseCore fuel 0 r2 with
          | some (PJ.v v, r3) =>
            match skipWs r3 with
            | ',' :: r4 =>
              match parseCore fuel 1 r4 with
              | some (PJ.ms l, r5) => some (PJ.ms ((String.mk kp.1, v) :: l), r5)
              | _ => none
            | '\x7d' :: r4 => some (PJ.ms [(String.mk kp.1, v)], r4)
            | _ => none
          | _ => none
        | _ => none
      | none => none
    | _ => none
  | Nat.succ fuel, Nat.succ (Nat.succ _), cs =>
    match parseCore fuel 0 cs with
    | some (PJ.v v, r1) =>
      match skipWs r1 with
      | ',' :: r2 =>
        match parseCore fuel 2 r2 with
        | some (PJ.its l, r3) => some (PJ.its (v :: l), r3)
        | _ => none
      | ']' :: r2 => some (PJ.its [v], r2)
      | _ => none
    | _ => none

/-- Model of Python's `json.loads`: parse one JSON value and require
only whitespace to remain. -/
def json_loads (s : String) : Option Json :=
  let cs := s.toList
  match parseCore (2 * cs.length + 4) 0 cs with
  | some (PJ.v j, rest) => if skipWs rest = [] then some j else none
  | _ => none

/-- Split a character list at every occurrence of `sep`, Python
`str.split(sep)` semantics: no merging of adjacent separators, and the
empty input yields one empty field. -/
def splitChar (sep : Char) : List Char → List (List Char)
  | [] => [[]]
  | c :: rest =>
    let r := splitChar sep rest
    if c = sep then [] :: r
    else
      match r with
      | f :: rs => (c :: f) :: rs
      | [] => [[c]]

/-- Embeds Python's `s.split(sep)` for a one-character separator. -/
def pySplit (sep : Char) (s : String) : List String :=
  (splitChar sep s.toList).map (fun l => String.mk l)

/-- Characters stripped by Python's `str.strip()` (ASCII whitespace). -/
def isPySpace : Char → Bool
  | ' ' => true
  | '\t' => true
  | '\n' => true
  | '\r' => true
  | '\x0b' => true
  | '\x0c' => true
  | _ => false

/-- Embeds Python's `s.strip()`. -/
def pyStrip (s : String) : String :=
  String.mk (((s.toList.dropWhile isPySpace).reverse.dropWhile isPySpace).reverse)

/-- Embeds Python's `str(b).lower()` for a boolean. -/
def pyBoolLower (b : Bool) : String :=
  if b then "true" else "false"

/-- Embeds the body-extraction loop of `handle_request` (lines 108-111):
scan the request lines; at the first line whose stripped form is empty
and which is not the last line, the body is the next line; otherwise the
body stays `""`. -/
def find_body : List String → String
  | [] => ""
  | [_] => ""
  | l :: next :: rest =>
    if pyStrip l = "" then next else find_body (next :: rest)

/-- Embeds the `/status` route's f-string (line 115). -/
def status_response (s : MotorState) : String :=
  "\x7b\"status\": \"online\", \"motor_running\": " ++ pyBoolLower s.motor_running ++
    ", \"motor_speed\": " ++ toString s.motor_speed ++ "\x7d"

/-- Embeds the `/` route's HTML f-string (lines 133-141), including its
leading/trailing indentation from the triple-quoted literal. -/
def html_page (s : MotorState) : String :=
  "\n                <html><body>\n                <h1>ESP32-C3 Motor Controller</h1>\n                <p>Motor Status: " ++
    (if s.motor_running then "RUNNING" else "STOPPED") ++
    "</p>\n                <p>Speed: " ++ toString s.motor_speed ++
    "</p>\n                <button onclick=\"fetch(\x27/motor/start\x27, \x7bmethod:\x27POST\x27\x7d)\">START MOTOR</button>\n                <button onclick=\"fetch(\x27/motor/stop\x27, \x7bmethod:\x27POST\x27\x7d)\">STOP MOTOR</button>\n                </body></html>\n                "

/-- Embeds `process_alarm_command`: parse the body as JSON; on any
exception (parse failure, or `.get` on a non-dict value) return the
error body and leave the state untouched; otherwise dispatch on
`action` and the truthiness of `enabled` and return the success body. -/
def process_alarm_command (data : String) (s : MotorState) : MotorState × String :=
  match json_loads data with
  | some (Json.obj fields) =>
    let action := dictGet fields "action" (Json.str "")
    let enabled := truthy (dictGet fields "enabled" (Json.bool false))
    let s2 :=
      if isStr action "add" || isStr action "update" || isStr action "toggle" then
        if enabled then start_motor s else stop_motor s
      else if isStr action "delete" then stop_motor s
      else s
    (s2, "\x7b\"status\": \"success\"\x7d")
  | some _ => (s, "\x7b\"error\": \"Invalid data\"\x7d")
  | none => (s, "\x7b\"error\": \"Invalid data\"\x7d")

/-- Embeds the route-dispatch chain of `handle_request` (lines 114-146):
given the parsed path, method and body, return the next state, the
response body and the content type. -/
def route (path method body : String) (s : MotorState) : MotorState × String × String :=
  if path = "/status" then
    (s, status_response s, "application/json")
  else if path = "/alarm" ∧ method = "POST" then
    let r := process_alarm_command body s
    (r.1, r.2, "application/json")
  else if path = "/motor/start" ∧ method = "POST" then
    (start_motor s, "\x7b\"status\": \"Motor started\"\x7d", "application/json")
  else if path = "/motor/stop" ∧ method = "POST" then
    (stop_motor s, "\x7b\"status\": \"Motor stopped\"\x7d", "application/json")
  else if path = "/" then
    (s, html_page s, "text/html")
  else
    (s, "\x7b\"error\": \"Not found\"\x7d", "application/json")

/-- Embeds `handle_request` on the decoded request text: split into
lines, unpack the request line into exactly three space-separated
tokens (any other count raises `ValueError`, caught by the handler's
`except`, so no response is sent — modelled as `none`), extract the body
for POST requests, and dispatch.  Returns the next state and, when a
response is sent, its body and content type. -/
def handle_request (request : String) (s : MotorState) : MotorState × Option (String × String) :=
  match pySplit ' ' ((pySplit '\n' request).headD "") with
  | [method, path, _] =>
    let body := if method = "POST" then find_body (pySplit '\n' request) else ""
    let r := route path method body s
    (r.1, some (r.2.1, r.2.2))
  | _ => (s, none)

/-- Embeds the HTTP framing f-string of `handle_request` (lines
149-154): status line fixed at `200 OK`, three headers, blank line,
body.  `Content-Length` is Python's `len(response)`, the character
count. -/
def frame_response (resp ct : String) : String :=
  "HTTP/1.1 200 OK\nContent-Type: " ++ ct ++ "\nContent-Length: " ++
    toString resp.length ++ "\nConnection: close\n\n" ++ resp

/-- `handle_request` down to the bytes written on the connection:
`none` when the per-connection `except` swallowed an error and nothing
was sent. -/
def handle_request_wire (request : String) (s : MotorState) : MotorState × Option String :=
  match handle_request request s with
  | (s2, some rc) => (s2, some (frame_response rc.1 rc.2))
  | (s2, none) => (s2, none)

/-- Embeds the accept loop of `main` over a finite trace of incoming
requests: each connection is handled to completion (its error, if any,
is caught inside `handle_request`) and the loop moves on to the next. -/
def serve (reqs : List String) (s : MotorState) : MotorState × List (Option String) :=
  match reqs with
  | [] => (s, [])
  | r :: rest =>
    let p := handle_request_wire r s
    let q := serve rest p.1
    (q.1, p.2 :: q.2)

/-- Body extraction as the specification words it: the first index `i`
such that line `i` strips to empty and `i` is not the last index; the
body is then line `i + 1`, else the empty string.  Stated independently
of the source loop so that `find_body` can be proved to refine it. -/
def body_from_spec (lines : List String) : String :=
  match (List.range lines.length).find?
      (fun i => decide (pyStrip (lines.getD i "") = "") && decide (i < lines.length - 1)) with
  | some i => lines.getD (i + 1) ""
  | none => ""

/-- Calls into the motor driver, for reasoning about arbitrary
start/stop sequences. -/
inductive MotorCall where
  | start : MotorCall
  | stop : MotorCall
deriving DecidableEq, Repr

/-- Apply one driver call. -/
def applyCall (s : MotorState) : MotorCall → MotorState
  | MotorCall.start => start_motor s
  | MotorCall.stop => stop_motor s

/-- Apply a sequence of driver calls, oldest first. -/
def applyCalls (s : MotorState) (calls : List MotorCall) : MotorState :=
  calls.foldl applyCall s

/-- A `POST /alarm` request whose body is the toggle-on command. -/
def alarmToggleReq : String :=
  "POST /alarm HTTP/1.1\r\nHost: 192.168.4.1\r\nContent-Type: application/json\r\n\r\n\x7b\"action\":\"toggle\",\"enabled\":true\x7d"

/-- A `GET /status` request. -/
def statusReq : String :=
  "GET /status HTTP/1.1\r\nHost: 192.168.4.1\r\n\r\n"

/-- A `POST /motor/stop` request. -/
def stopReq : String :=
  "POST /motor/stop HTTP/1.1\r\nHost: 192.168.4.1\r\n\r\n"

/-- A `POST /alarm` request whose body is not JSON. -/
def notJsonReq : String :=
  "POST /alarm HTTP/1.1\r\nHost: 192.168.4.1\r\n\r\nnot json"

/-- A request for a path that matches no route. -/
def notFoundReq : String :=
  "GET /unknown/path HTTP/1.1\r\nHost: 192.168.4.1\r\n\r\n"

/-- A request whose first line does not have three space-separated
tokens. -/
def garbageReq : String :=
  "GARBAGE\r\n"

/-- C2: handling `POST /alarm` with body `{"action":"toggle","enabled":true}`
starts the motor (running set, pin1 high, pin2 low, LED on) and returns
the success body; a `GET /status` handled afterwards reports
`motor_running` as `true`. -/
theorem alarm_toggle_starts_motor (s : MotorState) :
    handle_request alarmToggleReq s =
      (start_motor s, some ("\x7b\"status\": \"success\"\x7d", "application/json")) ∧
    (start_motor s).motor_running = true ∧
    (start_motor s).pin1 = true ∧
    (start_motor s).pin2 = false ∧
    (start_motor s).status_led = true ∧
    handle_request statusReq (start_motor s) =
      (start_motor s,
       some ("\x7b\"status\": \"online\", \"motor_running\": true, \"motor_speed\": " ++
               toString s.motor_speed ++ "\x7d", "application/json")) :=
  ⟨rfl, rfl, rfl, rfl, rfl, rfl⟩

/-- C4: handling `GET /status` when the motor is stopped and the speed
still holds its initial value 128 returns exactly the online/false/128
JSON body with content type `application/json`. -/
theorem status_route_initial_state (s : MotorState)
    (h1 : s.motor_running = false) (h2 : s.motor_speed = 128) :
    handle_request statusReq s =
      (s, some ("\x7b\"status\": \"online\", \"motor_running\": false, \"motor_speed\": 128\x7d",
                "application/json")) := by
  have hr : handle_request statusReq s = (s, some (status_response s, "application/json")) := rfl
  rw [hr]
  unfold status_response
  rw [h1, h2]
  rfl

/-- C4 witness: the initial state satisfies the hypotheses and
the statement evaluates on it. -/
theorem status_route_initial_state_witness :
    initState.motor_running = false ∧ initState.motor_speed = 128 ∧
    handle_request statusReq initState =
      (initState, some ("\x7b\"status\": \"online\", \"motor_running\": false, \"motor_speed\": 128\x7d",
                        "application/json")) :=
  ⟨rfl, rfl, status_route_initial_state initState rfl rfl⟩

/-- C5: handling `POST /motor/stop` from any prior state returns the
stopped body, and `stop_motor` is idempotent with both control pins low
and the status LED off. -/
theorem motor_stop_idempotent (s : MotorState) :
    handle_request stopReq s =
      (stop_motor s, some ("\x7b\"status\": \"Motor stopped\"\x7d", "application/json")) ∧
    stop_motor (stop_motor s) = stop_motor s ∧
    (stop_motor s).motor_running = false ∧
    (stop_motor s).pin1 = false ∧
    (stop_motor s).pin2 = false ∧
    (stop_motor s).status_led = false :=
  ⟨rfl, rfl, rfl, rfl, rfl, rfl⟩

/-- C3: when the body of a `POST /alarm` request does not parse as
JSON, the handler returns the invalid-data error body and leaves the
motor state (running flag and all pin outputs) exactly as it was; the
concrete request with body `not json` exhibits this end to end. -/
theorem alarm_invalid_json_preserves_state (body : String) (s : MotorState)
    (h : json_loads body = none) :
    process_alarm_command body s = (s, "\x7b\"error\": \"Invalid data\"\x7d") ∧
    route "/alarm" "POST" body s =
      (s, "\x7b\"error\": \"Invalid data\"\x7d", "application/json") ∧
    handle_request notJsonReq s =
      (s, some ("\x7b\"error\": \"Invalid data\"\x7d", "application/json")) := by
  have h1 : process_alarm_command body s = (s, "\x7b\"error\": \"Invalid data\"\x7d") := by
    unfold process_alarm_command
    rw [h]
  refine ⟨h1, ?_, rfl⟩
  have h2 : route "/alarm" "POST" body s =
      ((process_alarm_command body s).1, (process_alarm_command body s).2, "application/json") := rfl
  rw [h2, h1]

/-- C3 witness: the literal body `not json` fails to parse and
the statement evaluates on it from the initial state. -/
theorem alarm_invalid_json_preserves_state_witness :
    json_loads "not json" = none ∧
    (process_alarm_command "not json" initState =
       (initState, "\x7b\"error\": \"Invalid data\"\x7d") ∧
     route "/alarm" "POST" "not json" initState =
       (initState, "\x7b\"error\": \"Invalid data\"\x7d", "application/json") ∧
     handle_request notJsonReq initState =
       (initState, some ("\x7b\"error\": \"Invalid data\"\x7d", "application/json"))) :=
  ⟨rfl, alarm_invalid_json_preserves_state "not json" initState rfl⟩

/-- C6: any (path, method) pair matching none of the five routes yields
the not-found JSON body with the state unchanged, and on the wire the
response is framed with status line `HTTP/1.1 200 OK` and content type
`application/json`, as the concrete request `GET /unknown/path` shows. -/
theorem unmatched_route_not_found_200 (path method body : String) (s : MotorState)
    (h1 : path ≠ "/status")
    (h2 : ¬(path = "/alarm" ∧ method = "POST"))
    (h3 : ¬(path = "/motor/start" ∧ method = "POST"))
    (h4 : ¬(path = "/motor/stop" ∧ method = "POST"))
    (h5 : path ≠ "/") :
    route path method body s = (s, "\x7b\"error\": \"Not found\"\x7d", "application/json") ∧
    handle_request_wire notFoundReq s =
      (s, some ("HTTP/1.1 200 OK\nContent-Type: application/json\nContent-Length: 22\nConnection: close\n\n\x7b\"error\": \"Not found\"\x7d")) := by
  constructor
  · unfold route
    rw [if_neg h1, if_neg h2, if_neg h3, if_neg h4, if_neg h5]
  · show (s, some (frame_response "\x7b\"error\": \"Not found\"\x7d" "application/json")) = _
    rfl

/-- C6 witness: the hypotheses hold for `GET /unknown/path` and
the statement evaluates there. -/
theorem unmatched_route_not_found_200_witness :
    route "/unknown/path" "GET" "" initState =
      (initState, "\x7b\"error\": \"Not found\"\x7d", "application/json") ∧
    handle_request_wire notFoundReq initState =
      (initState, some ("HTTP/1.1 200 OK\nContent-Type: application/json\nContent-Length: 22\nConnection: close\n\n\x7b\"error\": \"Not found\"\x7d")) :=
  unmatched_route_not_found_200 "/unknown/path" "GET" "" initState
    (by decide) (by decide) (by decide) (by decide) (by decide)

/-- C7: when the first request line does not have exactly three
space-separated tokens, the unpacking raises, the per-connection
handler catches it, no response is sent, the state is unchanged, and
the accept loop goes on to serve the remaining connections unchanged. -/
theorem malformed_request_line_silent_drop (req : String) (reqs : List String) (s : MotorState)
    (h : (pySplit ' ' ((pySplit '\n' req).headD "")).length ≠ 3) :
    handle_request_wire req s = (s, none) ∧
    serve (req :: reqs) s = ((serve reqs s).1, none :: (serve reqs s).2) := by
  have hh : handle_request req s = (s, none) := by
    unfold handle_request
    rcases htoks : pySplit ' ' ((pySplit '\n' req).headD "") with _ | ⟨a, _ | ⟨b, _ | ⟨c, _ | ⟨d, t⟩⟩⟩⟩
    · rfl
    · rfl
    · rfl
    · exact absurd (by rw [htoks]; rfl) h
    · rfl
  have hw : handle_request_wire req s = (s, none) := by
    unfold handle_request_wire
    rw [hh]
  refine ⟨hw, ?_⟩
  show ((serve reqs (handle_request_wire req s).1).1,
        (handle_request_wire req s).2 :: (serve reqs (handle_request_wire req s).1).2) = _
  rw [hw]

/-- C7 witness: the request line `GARBAGE` has one token, and
the statement evaluates on it with one follow-up status request, which
is still served. -/
theorem malformed_request_line_silent_drop_witness :
    (pySplit ' ' ((pySplit '\n' garbageReq).headD "")).length ≠ 3 ∧
    (handle_request_wire garbageReq initState = (initState, none) ∧
     serve (garbageReq :: [statusReq]) initState =
       ((serve [statusReq] initState).1, none :: (serve [statusReq] initState).2)) :=
  ⟨by decide, malformed_request_line_silent_drop garbageReq [statusReq] initState (by decide)⟩

/-- Helper: `process_alarm_command` never changes `motor_speed`. -/
theorem process_alarm_command_speed (body : String) (s : MotorState) :
    ((process_alarm_command body s).1).motor_speed = s.motor_speed := by
  unfold process_alarm_command
  cases json_loads body with
  | none => rfl
  | some j =>
    cases j with
    | null => rfl
    | bool b => rfl
    | num n => rfl
    | str a => rfl
    | arr l => rfl
    | obj fields =>
      dsimp only
      split_ifs <;> rfl

/-- Helper: `route` never changes `motor_speed`. -/
theorem route_speed (path method body : String) (s : MotorState) :
    ((route path method body s).1).motor_speed = s.motor_speed := by
  unfold route
  split_ifs <;> first
    | rfl
    | exact process_alarm_command_speed body s

/-- C8: no request on any route, and neither driver call, ever mutates
`motor_speed`. -/
theorem motor_speed_never_mutated (request : String) (s : MotorState) :
    ((handle_request request s).1).motor_speed = s.motor_speed ∧
    (start_motor s).motor_speed = s.motor_speed ∧
    (stop_motor s).motor_speed = s.motor_speed := by
  refine ⟨?_, rfl, rfl⟩
  unfold handle_request
  rcases htoks : pySplit ' ' ((pySplit '\n' request).headD "") with _ | ⟨a, _ | ⟨b, _ | ⟨c, _ | ⟨d, t⟩⟩⟩⟩
  · rfl
  · rfl
  · rfl
  · exact route_speed b a _ s
  · rfl

/-- C1: after any nonempty sequence of start/stop calls from any
initial state, `motor_running` is true iff the last call was start and
false iff it was stop, pin1 mirrors `motor_running`, pin2 is low and
the status LED mirrors `motor_running` (so the pins are always in
exactly one of the two mutually exclusive configurations). -/
theorem motor_calls_track_last_call (init : MotorState) (calls : List MotorCall)
    (c : MotorCall) (h : calls.getLast? = some c) :
    ((applyCalls init calls).motor_running = true ↔ c = MotorCall.start) ∧
    ((applyCalls init calls).motor_running = false ↔ c = MotorCall.stop) ∧
    (applyCalls init calls).pin1 = (applyCalls init calls).motor_running ∧
    (applyCalls init calls).pin2 = false ∧
    (applyCalls init calls).status_led = (applyCalls init calls).motor_running := by
  induction calls generalizing init with
  | nil => simp at h
  | cons a rest ih =>
    cases rest with
    | nil =>
      have ha : a = c := by simpa using h
      subst ha
      cases a <;> simp [applyCalls, applyCall, start_motor, stop_motor]
    | cons b rest2 =>
      have h2 : (b :: rest2).getLast? = some c := by
        rw [List.getLast?_cons_cons] at h
        exact h
      exact ih (applyCall init a) h2

/-- C1 witness: the sequence stop-then-start ends running with pin1
high, pin2 low, LED on. -/
theorem motor_calls_track_last_call_witness :
    [MotorCall.stop, MotorCall.start].getLast? = some MotorCall.start ∧
    (((applyCalls initState [MotorCall.stop, MotorCall.start]).motor_running = true ↔
        MotorCall.start = MotorCall.start) ∧
     ((applyCalls initState [MotorCall.stop, MotorCall.start]).motor_running = false ↔
        MotorCall.start = MotorCall.stop) ∧
     (applyCalls initState [MotorCall.stop, MotorCall.start]).pin1 =
       (applyCalls initState [MotorCall.stop, MotorCall.start]).motor_running ∧
     (applyCalls initState [MotorCall.stop, MotorCall.start]).pin2 = false ∧
     (applyCalls initState [MotorCall.stop, MotorCall.start]).status_led =
       (applyCalls initState [MotorCall.stop, MotorCall.start]).motor_running) :=
  ⟨rfl, motor_calls_track_last_call initState [MotorCall.stop, MotorCall.start] MotorCall.start rfl⟩

/-- C10: if a `POST /alarm` body parses as a JSON object whose action
is add, update or toggle but which has no `enabled` key, `enabled`
defaults to false, so the handler stops the motor and still returns the
success body. -/
theorem alarm_missing_enabled_stops_motor (body : String) (fields : List (String × Json))
    (s : MotorState)
    (hp : json_loads body = some (Json.obj fields))
    (ha : dictGet fields "action" (Json.str "") = Json.str "add" ∨
          dictGet fields "action" (Json.str "") = Json.str "update" ∨
          dictGet fields "action" (Json.str "") = Json.str "toggle")
    (he : lookupKey fields "enabled" = none) :
    process_alarm_command body s = (stop_motor s, "\x7b\"status\": \"success\"\x7d") := by
  have hen : dictGet fields "enabled" (Json.bool false) = Json.bool false := by
    unfold dictGet
    rw [he]
  have hcond : (isStr (dictGet fields "action" (Json.str "")) "add" ||
                isStr (dictGet fields "action" (Json.str "")) "update" ||
                isStr (dictGet fields "action" (Json.str "")) "toggle") = true := by
    rcases ha with h | h | h <;> rw [h] <;> rfl
  unfold process_alarm_command
  rw [hp]
  dsimp only
  rw [hcond, hen]
  rfl

/-- C10 witness: the body with action toggle and no enabled key parses,
satisfies the hypotheses, and stops the motor with a success reply. -/
theorem alarm_missing_enabled_stops_motor_witness :
    json_loads "\x7b\"action\": \"toggle\"\x7d" = some (Json.obj [("action", Json.str "toggle")]) ∧
    process_alarm_command "\x7b\"action\": \"toggle\"\x7d" initState =
      (stop_motor initState, "\x7b\"status\": \"success\"\x7d") :=
  ⟨rfl, alarm_missing_enabled_stops_motor "\x7b\"action\": \"toggle\"\x7d"
    [("action", Json.str "toggle")] initState rfl (Or.inr (Or.inr rfl)) rfl⟩

/-- Helper: dropping a non-matching head shifts a `find?` over an index
range. -/
theorem find?_range_shift (n : Nat) (p : Nat → Bool) (hp : ¬p 0 = true) :
    List.find? p (List.range (n + 1)) =
      (List.find? (fun i => p (i + 1)) (List.range n)).map Nat.succ := by
  rw [List.range_succ_eq_map, List.find?_cons_of_neg _ hp, List.find?_map]
  rfl

/-- C9: the body-extraction loop computes exactly the indexed
description: the body is the line after the first line that strips to
empty and is not the last line, else the empty string.  In particular a
multi-line body is truncated to its first line, as the second conjunct
shows on a concrete POST request's lines. -/
theorem find_body_matches_spec (lines : List String) :
    find_body lines = body_from_spec lines ∧
    find_body ["POST /alarm HTTP/1.1\r", "Host: h\r", "\r", "line1", "line2"] = "line1" := by
  refine ⟨?_, rfl⟩
  induction lines with
  | nil => rfl
  | cons l rest ih =>
    cases rest with
    | nil =>
      show "" = body_from_spec [l]
      unfold body_from_spec
      rw [show [l].length = 1 from rfl]
      rw [show List.range 1 = [0] from rfl]
      rw [List.find?_cons_of_neg]
      · rfl
      · simp
    | cons next rest2 =>
      by_cases hb : pyStrip l = ""
      · show (if pyStrip l = "" then next else find_body (next :: rest2)) = _
        rw [if_pos hb]
        unfold body_from_spec
        rw [show (l :: next :: rest2).length = rest2.length + 2 from rfl]
        rw [show List.range (rest2.length + 2) =
              0 :: (List.range (rest2.length + 1)).map Nat.succ from List.range_succ_eq_map _]
        rw [List.find?_cons_of_pos]
        · rfl
        · simp [hb]
      · show (if pyStrip l = "" then next else find_body (next :: rest2)) = _
        rw [if_neg hb]
        rw [ih]
        unfold body_from_spec
        rw [show (l :: next :: rest2).length = (next :: rest2).length + 1 from rfl]
        rw [find?_range_shift]
        · have hfun : (fun i => decide (pyStrip ((l :: next :: rest2).getD (i + 1) "") = "") &&
              decide (i + 1 < (next :: rest2).length + 1 - 1)) =
              (fun i => decide (pyStrip ((next :: rest2).getD i "") = "") &&
              decide (i < (next :: rest2).length - 1)) := by
            funext i
            have h2 : (i + 1 < (next :: rest2).length + 1 - 1) ↔ (i < (next :: rest2).length - 1) := by
              simp only [List.length_cons]
              omega
            rw [show ((l :: next :: rest2).getD (i + 1) "") = ((next :: rest2).getD i "") from rfl,
              decide_eq_decide.mpr h2]
          rw [hfun]
          cases hfind : List.find?
              (fun i => decide (pyStrip ((next :: rest2).getD i "") = "") &&
                decide (i < (next :: rest2).length - 1))
              (List.range (next :: rest2).length) with
          | none => rfl
          | some i => rfl
        · simp [hb]
